import Mathlib

/-!
Shallow embedding of the ComfyUI Flux 1.1 RAW API node
(src/__init__.py, class FluxPro11WithFinetune).

External effects — HTTP requests, sleeping, image decoding, the file
system — are modelled by explicit oracle environments that describe the
outcome of each external interaction, and every embedded function
additionally returns the ordered trace of observable events (sleeps,
status queries, artifact downloads, POST submissions) it performs.
The recursive polling routine get_result is embedded with a structural
fuel argument that equals the number of attempts still allowed
(max_attempts + 1 - attempt), which is exactly the call-depth bound the
Python recursion enforces through its `attempt > max_attempts` guard.
-/

namespace FluxAPI

/-- Decoded pixel artifact: the tensor shape together with its
(flattened) contents; pixel values are exact rationals (byte / 255). -/
structure Artifact where
  dims : List Nat
  pix : Nat → Rat

/-- Status.PENDING.value (source lines 13-16). -/
def StatusPending : String := "Pending"

/-- Status.READY.value (source lines 13-16). -/
def StatusReady : String := "Ready"

/-- Status.ERROR.value (source lines 13-16). -/
def StatusError : String := "Error"

/-- Observable external events, in the order the code performs them. -/
inductive Event where
  | sleep (seconds : Nat)
  | statusQuery (attempt : Nat)
  | download
  | post
  deriving DecidableEq

/-- Outcome of one status query (requests.get on the get_result URL):
either an exception (transport error, or any exception raised while
reading the response, all handled by the same `except` clause), or a
response with its HTTP code, parsed status field, and parsed
result.sample field. -/
inductive StatusOutcome where
  | transport
  | response (code : Nat) (status : Option String) (sample : Option String)
  deriving DecidableEq

/-- Outcome of downloading the sample URL (requests.get(sample_url)):
an exception, or a response with its HTTP code. The downloaded bytes
feed the decoder, which is modelled by the per-attempt decode oracle. -/
inductive DownloadOutcome where
  | transport
  | http (code : Nat)
  deriving DecidableEq

/-- Outcome of decoding / re-encoding the downloaded bytes
(Image.open, img.save, np.array — source lines 305-313): an exception,
or the decoded artifact. -/
inductive DecodeOutcome where
  | fail
  | ok (a : Artifact)

/-- The world as seen by one polling attempt. -/
structure AttemptWorld where
  statusResp : StatusOutcome
  download : DownloadOutcome
  decode : DecodeOutcome

/-- create_blank_image (source lines 265-269): a 512x512 black RGB
image (every byte 0), converted to float32 / 255.0, with a leading
batch dimension of size 1 prepended. -/
def blackPixelByte : Nat := 0

/-- create_blank_image (source lines 265-269). -/
def create_blank_image : Artifact :=
  { dims := 1 :: [512, 512, 3]
    pix := fun _ => (blackPixelByte : Rat) / 255 }

/-- wait_time = min(2 ** attempt + 5, 30) (source line 280). -/
def wait_time (attempt : Nat) : Nat :=
  min (2 ^ attempt + 5) 30

/-- What one polling attempt decides, given its world: either the call
terminates with an artifact, or it retries (the Python recursion
get_result(task_id, output_format, x_key, attempt + 1, max_attempts)).
The Bool records whether a download of the sample URL happened. -/
inductive StepResult where
  | terminal (a : Artifact) (dl : Bool)
  | retry (dl : Bool)

/-- The download event list of one attempt. -/
def dlEvents (dl : Bool) : List Event :=
  if dl then [Event.download] else []

/-- One polling attempt of get_result (source lines 276-335), after the
sleep and the status query have been performed:
* exception during the query (transport): retry if attempt <
  max_attempts, else fall through to create_blank_image (line 335);
* code 200, status Ready: missing or empty sample URL is terminal
  blank; download with non-200 code is terminal blank; a download
  exception or a decode exception is caught by the except clause and
  retries if attempt < max_attempts, else blank; a successful decode is
  terminal with the decoded artifact;
* code 200, status Pending: retry unconditionally (the attempt >
  max_attempts guard of the recursive call stops the recursion);
* code 200, any other status: terminal blank (lines 318-321);
* non-200 code: retry if attempt < max_attempts, else blank. -/
def pollStep (w : AttemptWorld) (attempt max_attempts : Nat) : StepResult :=
  match w.statusResp with
  | StatusOutcome.transport =>
      if attempt < max_attempts then StepResult.retry false
      else StepResult.terminal create_blank_image false
  | StatusOutcome.response code status sample =>
      if code = 200 then
        if status = some StatusReady then
          match sample with
          | none => StepResult.terminal create_blank_image false
          | some u =>
              if u = "" then StepResult.terminal create_blank_image false
              else
                match w.download with
                | DownloadOutcome.transport =>
                    if attempt < max_attempts then StepResult.retry true
                    else StepResult.terminal create_blank_image true
                | DownloadOutcome.http dcode =>
                    if dcode ≠ 200 then StepResult.terminal create_blank_image true
                    else
                      match w.decode with
                      | DecodeOutcome.fail =>
                          if attempt < max_attempts then StepResult.retry true
                          else StepResult.terminal create_blank_image true
                      | DecodeOutcome.ok a => StepResult.terminal a true
        else if status = some StatusPending then StepResult.retry false
        else StepResult.terminal create_blank_image false
      else
        if attempt < max_attempts then StepResult.retry false
        else StepResult.terminal create_blank_image false

/-- The polling recursion of get_result. The first Nat is structural
fuel equal to max_attempts + 1 - attempt: it is 0 exactly when attempt
> max_attempts, which is the guard on source lines 272-274 (return
create_blank_image with no sleep and no query). Otherwise the attempt
sleeps wait_time seconds, issues its status query, and acts per
pollStep. -/
def pollLoop (env : Nat → AttemptWorld) (max_attempts : Nat) :
    Nat → Nat → Artifact × List Event
  | 0, _ => (create_blank_image, [])
  | remaining + 1, attempt =>
      let pre : List Event := [Event.sleep (wait_time attempt), Event.statusQuery attempt]
      match pollStep (env attempt) attempt max_attempts with
      | StepResult.terminal a dl => (a, pre ++ dlEvents dl)
      | StepResult.retry dl =>
          let rr := pollLoop env max_attempts remaining (attempt + 1)
          (rr.1, pre ++ dlEvents dl ++ rr.2)

/-- get_result (source lines 271-335). task_id, output_format and
x_key only parameterize URLs, headers and the decoder (the decoder is
modelled by the per-attempt decode oracle), so they do not influence
the control flow. -/
def get_result (env : Nat → AttemptWorld)
    (task_id output_format x_key : String)
    (attempt max_attempts : Nat) : Artifact × List Event :=
  pollLoop env max_attempts (max_attempts + 1 - attempt) attempt

/-- get_dimensions_from_ratio (source lines 253-263): the
regular_dimensions dict lookup with default (1408, 800). -/
def get_dimensions_from_ratio (aspect_ratio : String) : Nat × Nat :=
  if aspect_ratio = "1:1" then (1024, 1024)
  else if aspect_ratio = "4:3" then (1408, 1024)
  else if aspect_ratio = "3:4" then (1024, 1408)
  else if aspect_ratio = "16:9" then (1408, 800)
  else if aspect_ratio = "9:16" then (800, 1408)
  else if aspect_ratio = "21:9" then (1408, 608)
  else if aspect_ratio = "9:21" then (608, 1408)
  else (1408, 800)

/-- JSON-ish payload values. -/
inductive PValue where
  | s (v : String)
  | i (v : Int)
  | b (v : Bool)
  | n (v : Nat)
  | r (v : Rat)
  deriving DecidableEq

/-- Does the payload dict have key k. -/
def hasKey (l : List (String × PValue)) (k : String) : Bool :=
  l.any fun kv => kv.1 == k

/-- The "arguments" payload built by generate_image (source lines
98-122): the ultra variant carries prompt, aspect_ratio,
safety_tolerance, output_format and raw; the standard variant carries
prompt, width, height (from get_dimensions_from_ratio),
safety_tolerance and output_format; both append seed only when
seed != -1. -/
def generate_payload (prompt : String) (ultra_mode : Bool)
    (aspect_ratio : String) (safety_tolerance : Int)
    (output_format : String) (raw : Bool) (seed : Int) :
    List (String × PValue) :=
  if ultra_mode then
    [("prompt", PValue.s prompt),
     ("aspect_ratio", PValue.s aspect_ratio),
     ("safety_tolerance", PValue.i safety_tolerance),
     ("output_format", PValue.s output_format),
     ("raw", PValue.b raw)]
    ++ (if seed ≠ -1 then [("seed", PValue.i seed)] else [])
  else
    [("prompt", PValue.s prompt),
     ("width", PValue.n (get_dimensions_from_ratio aspect_ratio).1),
     ("height", PValue.n (get_dimensions_from_ratio aspect_ratio).2),
     ("safety_tolerance", PValue.i safety_tolerance),
     ("output_format", PValue.s output_format)]
    ++ (if seed ≠ -1 then [("seed", PValue.i seed)] else [])

/-- Parsed submission response for generate_image (source lines
132-144): HTTP code, whether response.json() was falsy, and the
taskId field response_data.get("id") (absent field is none). -/
structure SubmitResponse where
  code : Nat
  bodyEmpty : Bool
  taskId : Option String
  deriving DecidableEq

/-- Outcome of the generate submission POST: a
requests.exceptions.RequestException, any other exception, or a
response. Both exception kinds are caught (lines 151-157) and produce
the blank image, so they behave identically. -/
inductive SubmitOutcome where
  | transport
  | raised
  | response (r : SubmitResponse)

/-- generate_image (source lines 91-157). Returns the artifact
(a 1-tuple in Python) plus the event trace. -/
def generate_image (submitEnv : SubmitOutcome) (pollEnv : Nat → AttemptWorld)
    (prompt : String) (ultra_mode : Bool) (aspect_ratio : String)
    (safety_tolerance : Int) (output_format : String) (raw : Bool)
    (x_key : String) (seed : Int) : Artifact × List Event :=
  if prompt = "" then (create_blank_image, [])
  else
    let arguments := generate_payload prompt ultra_mode aspect_ratio
      safety_tolerance output_format raw seed
    match submitEnv, arguments with
    | SubmitOutcome.transport, _ => (create_blank_image, [Event.post])
    | SubmitOutcome.raised, _ => (create_blank_image, [Event.post])
    | SubmitOutcome.response r, _ =>
        if r.code = 200 then
          if r.bodyEmpty then (create_blank_image, [Event.post])
          else
            match r.taskId with
            | none => (create_blank_image, [Event.post])
            | some tid =>
                if tid = "" then (create_blank_image, [Event.post])
                else
                  let rr := get_result pollEnv tid output_format x_key 1 15
                  (rr.1, Event.post :: rr.2)
        else (create_blank_image, [Event.post])

/-- Outcome of the finetune POST + raise_for_status + json parse
(source lines 196-203): any exception, or the parsed
result.get("finetune_id", "") value. -/
inductive FinetuneOutcome where
  | raised
  | ok (finetune_id : String)

/-- Oracle for request_finetuning: whether os.path.exists(finetune_zip)
holds, whether reading or base64-encoding the archive raised, the
encoded archive contents, and the POST outcome. -/
structure FinetuneEnv where
  zipExists : Bool
  readRaised : Bool
  encodedZip : String
  outcome : FinetuneOutcome

/-- request_finetuning (source lines 159-210). Validates the comment,
then the archive path, reads and encodes the archive, POSTs the
payload, and returns the blank image paired with the finetune id (or
"" on any failure). -/
def request_finetuning (env : FinetuneEnv)
    (finetune_zip finetune_comment trigger_word finetune_mode : String)
    (iterations : Int) (learning_rate : Rat) (captioning : Bool)
    (priority : String) (finetune_type : String) (lora_rank : Int)
    (x_key : String) : (Artifact × String) × List Event :=
  if finetune_comment = "" then ((create_blank_image, ""), [])
  else if env.zipExists = false then ((create_blank_image, ""), [])
  else if env.readRaised then ((create_blank_image, ""), [])
  else
    let payload : List (String × PValue) :=
      [("finetune_comment", PValue.s finetune_comment),
       ("trigger_word", PValue.s trigger_word),
       ("file_data", PValue.s env.encodedZip),
       ("iterations", PValue.i iterations),
       ("mode", PValue.s finetune_mode),
       ("learning_rate", PValue.r learning_rate),
       ("captioning", PValue.b captioning),
       ("priority", PValue.s priority),
       ("lora_rank", PValue.i lora_rank),
       ("finetune_type", PValue.s finetune_type)]
    match env.outcome, payload with
    | FinetuneOutcome.raised, _ => ((create_blank_image, ""), [Event.post])
    | FinetuneOutcome.ok fid, _ => ((create_blank_image, fid), [Event.post])

/-- Outcome of the inference POST + raise_for_status + json parse
(source lines 233-240): any exception, or the parsed result.get("id")
value (absent field is none). -/
inductive InferOutcome where
  | raised
  | ok (taskId : Option String)

/-- Oracle for finetune_inference: the POST outcome and the polling
environment of the subsequent get_result call. -/
structure InferenceEnv where
  outcome : InferOutcome
  poll : Nat → AttemptWorld

/-- finetune_inference (source lines 212-251). POSTs the payload; on
any exception or a falsy task id returns the blank image paired with
finetune_id; otherwise polls get_result and pairs its artifact with
finetune_id. -/
def finetune_inference (env : InferenceEnv)
    (finetune_id prompt : String) (ultra_mode : Bool)
    (finetune_strength : Rat) (x_key : String)
    (output_format : String) : (Artifact × String) × List Event :=
  let payload : List (String × PValue) :=
    [("finetune_id", PValue.s finetune_id),
     ("finetune_strength", PValue.r finetune_strength),
     ("prompt", PValue.s prompt),
     ("output_format", PValue.s output_format)]
  match env.outcome, payload with
  | InferOutcome.raised, _ => ((create_blank_image, finetune_id), [Event.post])
  | InferOutcome.ok none, _ => ((create_blank_image, finetune_id), [Event.post])
  | InferOutcome.ok (some tid), _ =>
      if tid = "" then ((create_blank_image, finetune_id), [Event.post])
      else
        let rr := get_result env.poll tid output_format x_key 1 15
        ((rr.1, finetune_id), Event.post :: rr.2)

/-- The node input parameters (INPUT_TYPES, source lines 42-72),
passed to process as kwargs. -/
structure Params where
  prompt : String
  ultra_mode : Bool
  aspect_ratio : String
  safety_tolerance : Int
  output_format : String
  raw : Bool
  seed : Int
  finetune_zip : String
  finetune_comment : String
  finetune_id : String
  trigger_word : String
  finetune_mode : String
  iterations : Int
  learning_rate : Rat
  captioning : Bool
  priority : String
  finetune_type : String
  lora_rank : Int
  finetune_strength : Rat

/-- Oracle for one process invocation. -/
structure Env where
  gen : SubmitOutcome
  genPoll : Nat → AttemptWorld
  ft : FinetuneEnv
  inf : InferenceEnv

/-- process (source lines 74-89): dispatch on the mode string; the
generate branch pairs the image 1-tuple with ""; an unknown mode
returns the blank image paired with "". -/
def process (env : Env) (mode : String) (x_key : String) (p : Params) :
    (Artifact × String) × List Event :=
  if mode = "generate" then
    let rr := generate_image env.gen env.genPoll p.prompt p.ultra_mode
      p.aspect_ratio p.safety_tolerance p.output_format p.raw x_key p.seed
    ((rr.1, ""), rr.2)
  else if mode = "finetune" then
    request_finetuning env.ft p.finetune_zip p.finetune_comment
      p.trigger_word p.finetune_mode p.iterations p.learning_rate
      p.captioning p.priority p.finetune_type p.lora_rank x_key
  else if mode = "inference" then
    finetune_inference env.inf p.finetune_id p.prompt p.ultra_mode
      p.finetune_strength x_key p.output_format
  else ((create_blank_image, ""), [])

/-- Is the event a status query. -/
def isStatusQuery : Event → Bool
  | Event.statusQuery _ => true
  | _ => false

/-- Number of status queries in a trace. -/
def countStatusQueries (t : List Event) : Nat :=
  t.countP isStatusQuery

/-- The attempt indices of the status queries in a trace, in order. -/
def queryIndices (t : List Event) : List Nat :=
  t.filterMap fun e =>
    match e with
    | Event.statusQuery k => some k
    | _ => none

/-- An artifact the decode oracle can actually produce. -/
def decodeOf (pe : Nat → AttemptWorld) (a : Artifact) : Prop :=
  ∃ k, (pe k).decode = DecodeOutcome.ok a

/-- Traces in which every status query for attempt n is immediately
preceded by a sleep of exactly wait_time n seconds, and sleeps occur
nowhere else. -/
inductive PacedTrace : List Event → Prop where
  | nil : PacedTrace []
  | download {t : List Event} : PacedTrace t → PacedTrace (Event.download :: t)
  | step {t : List Event} (k : Nat) :
      PacedTrace t →
      PacedTrace (Event.sleep (wait_time k) :: Event.statusQuery k :: t)

/-- A status query outcome on which the attempt cannot succeed: a
transport failure, a response whose code is not 200, or a 200 response
with a Pending status. -/
def FailingAt (w : AttemptWorld) : Prop :=
  w.statusResp = StatusOutcome.transport
  ∨ (∃ c st sm, w.statusResp = StatusOutcome.response c st sm ∧ c ≠ 200)
  ∨ (∃ sm, w.statusResp = StatusOutcome.response 200 (some StatusPending) sm)

/-- A world whose status query always answers 200 / Pending. -/
def pendingWorld : AttemptWorld :=
  { statusResp := StatusOutcome.response 200 (some StatusPending) none
    download := DownloadOutcome.http 200
    decode := DecodeOutcome.fail }

/-- Environment in which every status query answers Pending. -/
def envAllPending : Nat → AttemptWorld := fun _ => pendingWorld

/-- A world whose status query answers 200 / Error. -/
def errorWorld : AttemptWorld :=
  { statusResp := StatusOutcome.response 200 (some StatusError) none
    download := DownloadOutcome.http 200
    decode := DecodeOutcome.fail }

/-- Environment in which every status query answers an Error status. -/
def envAllError : Nat → AttemptWorld := fun _ => errorWorld

/-- A world answering Ready with a sample URL whose download succeeds
but whose decode raises. -/
def readyDecodeFailWorld : AttemptWorld :=
  { statusResp := StatusOutcome.response 200 (some StatusReady) (some "http://sample")
    download := DownloadOutcome.http 200
    decode := DecodeOutcome.fail }

/-- Environment in which every attempt is Ready with a failing decode. -/
def envC7 : Nat → AttemptWorld := fun _ => readyDecodeFailWorld

/-- A world answering Ready with a sample URL whose download raises a
transport error. -/
def readyDownloadTransportWorld : AttemptWorld :=
  { statusResp := StatusOutcome.response 200 (some StatusReady) (some "http://sample")
    download := DownloadOutcome.transport
    decode := DecodeOutcome.fail }

/-- Environment whose first attempt is Ready with a failing download
and whose later attempts answer an Error status. -/
def envC3 : Nat → AttemptWorld := fun n =>
  if n = 1 then readyDownloadTransportWorld else errorWorld

/-- Default node parameters (the INPUT_TYPES defaults), with an empty
prompt. -/
def defaultParams : Params :=
  { prompt := ""
    ultra_mode := true
    aspect_ratio := "16:9"
    safety_tolerance := 6
    output_format := "png"
    raw := false
    seed := -1
    finetune_zip := ""
    finetune_comment := ""
    finetune_id := ""
    trigger_word := "TOK"
    finetune_mode := "general"
    iterations := 300
    learning_rate := 1 / 100000
    captioning := true
    priority := "quality"
    finetune_type := "full"
    lora_rank := 32
    finetune_strength := 6 / 5 }

/-- A trivial oracle in which every external interaction fails. -/
def trivEnv : Env :=
  { gen := SubmitOutcome.transport
    genPoll := envAllPending
    ft :=
      { zipExists := false
        readRaised := false
        encodedZip := ""
        outcome := FinetuneOutcome.raised }
    inf :=
      { outcome := InferOutcome.raised
        poll := envAllPending } }

section Lemmas

@[simp] lemma isStatusQuery_sleep (s : Nat) : isStatusQuery (Event.sleep s) = false := rfl

@[simp] lemma isStatusQuery_statusQuery (k : Nat) : isStatusQuery (Event.statusQuery k) = true := rfl

@[simp] lemma isStatusQuery_download : isStatusQuery Event.download = false := rfl

@[simp] lemma isStatusQuery_post : isStatusQuery Event.post = false := rfl

@[simp] lemma countStatusQueries_nil : countStatusQueries [] = 0 := rfl

@[simp] lemma countStatusQueries_cons (e : Event) (t : List Event) :
    countStatusQueries (e :: t) =
      countStatusQueries t + (if isStatusQuery e then 1 else 0) := by
  simp [countStatusQueries, List.countP_cons]

@[simp] lemma countStatusQueries_append (s t : List Event) :
    countStatusQueries (s ++ t) = countStatusQueries s + countStatusQueries t := by
  simp [countStatusQueries, List.countP_append]

@[simp] lemma countStatusQueries_dlEvents (dl : Bool) :
    countStatusQueries (dlEvents dl) = 0 := by
  cases dl <;> simp [dlEvents]

@[simp] lemma queryIndices_nil : queryIndices [] = [] := rfl

@[simp] lemma queryIndices_cons_sleep (s : Nat) (t : List Event) :
    queryIndices (Event.sleep s :: t) = queryIndices t := rfl

@[simp] lemma queryIndices_cons_query (k : Nat) (t : List Event) :
    queryIndices (Event.statusQuery k :: t) = k :: queryIndices t := rfl

@[simp] lemma queryIndices_cons_download (t : List Event) :
    queryIndices (Event.download :: t) = queryIndices t := rfl

@[simp] lemma queryIndices_dlEvents_append (dl : Bool) (t : List Event) :
    queryIndices (dlEvents dl ++ t) = queryIndices t := by
  cases dl <;> simp [dlEvents, queryIndices]

/-- A terminal polling attempt yields either the blank image or an
artifact the decode oracle produced. -/
lemma pollStep_terminal_artifact {w : AttemptWorld} {attempt max_attempts : Nat}
    {a : Artifact} {dl : Bool}
    (h : pollStep w attempt max_attempts = StepResult.terminal a dl) :
    a = create_blank_image ∨ w.decode = DecodeOutcome.ok a := by
  unfold pollStep at h
  rcases hw : w.statusResp with _ | ⟨c, st, sm⟩ <;> rw [hw] at h <;> dsimp only at h
  · split_ifs at h <;> cases h <;> exact Or.inl rfl
  · by_cases hc : c = 200
    · rw [if_pos hc] at h
      by_cases hready : st = some StatusReady
      · rw [if_pos hready] at h
        rcases sm with _ | u <;> dsimp only at h
        · cases h; exact Or.inl rfl
        · by_cases hu : u = ""
          · rw [if_pos hu] at h
            cases h; exact Or.inl rfl
          · rw [if_neg hu] at h
            rcases hd : w.download with _ | dcode <;> rw [hd] at h <;> dsimp only at h
            · split_ifs at h <;> cases h <;> exact Or.inl rfl
            · by_cases hdc : dcode ≠ 200
              · rw [if_pos hdc] at h
                cases h; exact Or.inl rfl
              · rw [if_neg hdc] at h
                rcases hdec : w.decode with _ | b <;> rw [hdec] at h <;> dsimp only at h
                · split_ifs at h <;> cases h <;> exact Or.inl rfl
                · cases h; exact Or.inr rfl
      · rw [if_neg hready] at h
        split_ifs at h <;> cases h <;> exact Or.inl rfl
    · rw [if_neg hc] at h
      split_ifs at h <;> cases h <;> exact Or.inl rfl

/-- On a failing attempt that is not the last one, the code retries. -/
lemma pollStep_failing_lt {w : AttemptWorld} {attempt max_attempts : Nat}
    (hf : FailingAt w) (hlt : attempt < max_attempts) :
    pollStep w attempt max_attempts = StepResult.retry false := by
  rcases hf with hw | ⟨c, st, sm, hw, hc⟩ | ⟨sm, hw⟩
  · simp [pollStep, hw, hlt]
  · simp [pollStep, hw, hc, hlt]
  · simp [pollStep, hw, StatusPending, StatusReady, hlt]

/-- On a failing last attempt, the code either falls through to the
blank image or (for Pending) recurses into the attempt-budget guard. -/
lemma pollStep_failing_ge {w : AttemptWorld} {attempt max_attempts : Nat}
    (hf : FailingAt w) (hge : ¬ attempt < max_attempts) :
    pollStep w attempt max_attempts = StepResult.terminal create_blank_image false
    ∨ pollStep w attempt max_attempts = StepResult.retry false := by
  rcases hf with hw | ⟨c, st, sm, hw, hc⟩ | ⟨sm, hw⟩
  · exact Or.inl (by simp [pollStep, hw, hge])
  · exact Or.inl (by simp [pollStep, hw, hc, hge])
  · exact Or.inr (by simp [pollStep, hw, StatusPending, StatusReady])

/-- The poller issues at most as many status queries as it has
remaining attempts. -/
lemma pollLoop_count_le (env : Nat → AttemptWorld) (max_attempts : Nat) :
    ∀ r attempt, countStatusQueries (pollLoop env max_attempts r attempt).2 ≤ r := by
  intro r
  induction r with
  | zero => intro attempt; simp [pollLoop]
  | succ k ih =>
      intro attempt
      cases hps : pollStep (env attempt) attempt max_attempts with
      | terminal a dl => simp [pollLoop, hps]
      | retry dl =>
          have := ih (attempt + 1)
          simp [pollLoop, hps]
          omega

/-- When every attempt fails, the poller consumes its entire remaining
budget, issues exactly one status query per remaining attempt, and
returns the blank image. -/
lemma pollLoop_allfail (env : Nat → AttemptWorld) (max_attempts : Nat)
    (hf : ∀ n, FailingAt (env n)) :
    ∀ r attempt, attempt + r = max_attempts + 1 →
      (pollLoop env max_attempts r attempt).1 = create_blank_image
      ∧ countStatusQueries (pollLoop env max_attempts r attempt).2 = r := by
  intro r
  induction r with
  | zero => intro attempt _; simp [pollLoop]
  | succ k ih =>
      intro attempt hinv
      by_cases hlt : attempt < max_attempts
      · have hps := pollStep_failing_lt (hf attempt) hlt
        have hrec := ih (attempt + 1) (by omega)
        simp [pollLoop, hps, hrec.1, hrec.2]
      · have hk : k = 0 := by omega
        subst hk
        rcases pollStep_failing_ge (hf attempt) hlt with hps | hps
        · simp [pollLoop, hps]
        · simp [pollLoop, hps]

/-- Every artifact the poller returns is either the blank image or an
artifact the decode oracle produced. -/
lemma pollLoop_artifact (env : Nat → AttemptWorld) (max_attempts : Nat) :
    ∀ r attempt, (pollLoop env max_attempts r attempt).1 = create_blank_image
      ∨ decodeOf env (pollLoop env max_attempts r attempt).1 := by
  intro r
  induction r with
  | zero => intro attempt; exact Or.inl (by simp [pollLoop])
  | succ k ih =>
      intro attempt
      cases hps : pollStep (env attempt) attempt max_attempts with
      | terminal a dl =>
          rcases pollStep_terminal_artifact hps with ha | ha
          · exact Or.inl (by simp [pollLoop, hps, ha])
          · exact Or.inr ⟨attempt, by simp [pollLoop, hps, ha]⟩
      | retry dl =>
          rcases ih (attempt + 1) with ha | ⟨n, ha⟩
          · exact Or.inl (by simp [pollLoop, hps, ha])
          · exact Or.inr ⟨n, by simp [pollLoop, hps, ha]⟩

/-- Every trace the poller produces sleeps exactly wait_time n seconds
immediately before the status query of attempt n, for every query. -/
lemma pollLoop_paced (env : Nat → AttemptWorld) (max_attempts : Nat) :
    ∀ r attempt, PacedTrace (pollLoop env max_attempts r attempt).2 := by
  intro r
  induction r with
  | zero => intro attempt; simpa [pollLoop] using PacedTrace.nil
  | succ k ih =>
      intro attempt
      cases hps : pollStep (env attempt) attempt max_attempts with
      | terminal a dl =>
          cases dl <;>
            simpa [pollLoop, hps, dlEvents] using
              PacedTrace.step attempt (by first
                | exact PacedTrace.nil
                | exact PacedTrace.download PacedTrace.nil)
      | retry dl =>
          cases dl <;>
            simpa [pollLoop, hps, dlEvents] using
              PacedTrace.step attempt (by first
                | exact ih (attempt + 1)
                | exact PacedTrace.download (ih (attempt + 1)))

/-- The status queries of one polling run carry consecutive attempt
indices starting at the initial attempt. -/
lemma pollLoop_queryIndices (env : Nat → AttemptWorld) (max_attempts : Nat) :
    ∀ r attempt, ∃ k,
      queryIndices (pollLoop env max_attempts r attempt).2 = List.range' attempt k := by
  intro r
  induction r with
  | zero => intro attempt; exact ⟨0, by simp [pollLoop]⟩
  | succ j ih =>
      intro attempt
      cases hps : pollStep (env attempt) attempt max_attempts with
      | terminal a dl =>
          refine ⟨1, ?_⟩
          cases dl <;> simp [pollLoop, hps, dlEvents, List.range']
      | retry dl =>
          rcases ih (attempt + 1) with ⟨k, hk⟩
          refine ⟨k + 1, ?_⟩
          simp [pollLoop, hps, hk, List.range'_succ]

/-- The artifact get_result returns is the blank image or a decoded
artifact. -/
lemma get_result_artifact (env : Nat → AttemptWorld)
    (task_id output_format x_key : String) (attempt max_attempts : Nat) :
    (get_result env task_id output_format x_key attempt max_attempts).1 = create_blank_image
    ∨ decodeOf env (get_result env task_id output_format x_key attempt max_attempts).1 :=
  pollLoop_artifact env max_attempts (max_attempts + 1 - attempt) attempt

/-- The artifact generate_image returns is the blank image or a
decoded artifact. -/
lemma generate_image_artifact (se : SubmitOutcome) (pe : Nat → AttemptWorld)
    (prompt : String) (ultra_mode : Bool) (aspect_ratio : String)
    (safety_tolerance : Int) (output_format : String) (raw : Bool)
    (x_key : String) (seed : Int) :
    (generate_image se pe prompt ultra_mode aspect_ratio safety_tolerance
        output_format raw x_key seed).1 = create_blank_image
    ∨ decodeOf pe (generate_image se pe prompt ultra_mode aspect_ratio
        safety_tolerance output_format raw x_key seed).1 := by
  unfold generate_image
  by_cases hp : prompt = ""
  · simp [hp]
  · rw [if_neg hp]
    cases se with
    | transport => simp
    | raised => simp
    | response r =>
        dsimp only
        by_cases hc : r.code = 200
        · rw [if_pos hc]
          by_cases hb : r.bodyEmpty
          · simp [hb]
          · rw [if_neg hb]
            rcases hti : r.taskId with _ | tid
            · simp
            · by_cases htid : tid = ""
              · simp [htid]
              · simp only [htid, if_neg, if_false]
                exact get_result_artifact pe tid output_format x_key 1 15
        · rw [if_neg hc]
          simp


/-- request_finetuning always returns the blank image, paired with ""
or with the finetune id the remote service answered. -/
lemma request_finetuning_result (env : FinetuneEnv)
    (finetune_zip finetune_comment trigger_word finetune_mode : String)
    (iterations : Int) (learning_rate : Rat) (captioning : Bool)
    (priority : String) (finetune_type : String) (lora_rank : Int)
    (x_key : String) :
    (request_finetuning env finetune_zip finetune_comment trigger_word
        finetune_mode iterations learning_rate captioning priority
        finetune_type lora_rank x_key).1.1 = create_blank_image
    ∧ ((request_finetuning env finetune_zip finetune_comment trigger_word
          finetune_mode iterations learning_rate captioning priority
          finetune_type lora_rank x_key).1.2 = ""
       ∨ env.outcome = FinetuneOutcome.ok
          (request_finetuning env finetune_zip finetune_comment trigger_word
            finetune_mode iterations learning_rate captioning priority
            finetune_type lora_rank x_key).1.2) := by
  unfold request_finetuning
  by_cases h1 : finetune_comment = ""
  · simp [h1]
  · rw [if_neg h1]
    by_cases h2 : env.zipExists = false
    · simp [h2]
    · rw [if_neg h2]
      by_cases h3 : env.readRaised
      · simp [h3]
      · rw [if_neg h3]
        rcases ho : env.outcome with _ | fid <;> simp [ho]

/-- finetune_inference always pairs its artifact with the original
finetune id, and the artifact is blank or a decoded artifact. -/
lemma finetune_inference_result (env : InferenceEnv)
    (finetune_id prompt : String) (ultra_mode : Bool)
    (finetune_strength : Rat) (x_key output_format : String) :
    (finetune_inference env finetune_id prompt ultra_mode
        finetune_strength x_key output_format).1.2 = finetune_id
    ∧ ((finetune_inference env finetune_id prompt ultra_mode
          finetune_strength x_key output_format).1.1 = create_blank_image
       ∨ decodeOf env.poll (finetune_inference env finetune_id prompt
          ultra_mode finetune_strength x_key output_format).1.1) := by
  unfold finetune_inference
  rcases ho : env.outcome with _ | ti
  · simp
  · rcases ti with _ | tid
    · simp
    · dsimp only
      by_cases htid : tid = ""
      · simp [htid]
      · rw [if_neg htid]
        exact ⟨rfl, get_result_artifact env.poll tid output_format x_key 1 15⟩

/-- The artifact process returns is blank or was produced by one of
the two decode oracles. -/
lemma process_artifact_cases (env : Env) (mode x_key : String) (p : Params) :
    (process env mode x_key p).1.1 = create_blank_image
    ∨ decodeOf env.genPoll (process env mode x_key p).1.1
    ∨ decodeOf env.inf.poll (process env mode x_key p).1.1 := by
  unfold process
  by_cases h1 : mode = "generate"
  · rw [if_pos h1]
    rcases generate_image_artifact env.gen env.genPoll p.prompt p.ultra_mode
      p.aspect_ratio p.safety_tolerance p.output_format p.raw x_key p.seed with h | h
    · exact Or.inl h
    · exact Or.inr (Or.inl h)
  · rw [if_neg h1]
    by_cases h2 : mode = "finetune"
    · rw [if_pos h2]
      exact Or.inl (request_finetuning_result env.ft p.finetune_zip
        p.finetune_comment p.trigger_word p.finetune_mode p.iterations
        p.learning_rate p.captioning p.priority p.finetune_type
        p.lora_rank x_key).1
    · rw [if_neg h2]
      by_cases h3 : mode = "inference"
      · rw [if_pos h3]
        rcases (finetune_inference_result env.inf p.finetune_id p.prompt
          p.ultra_mode p.finetune_strength x_key p.output_format).2 with h | h
        · exact Or.inl h
        · exact Or.inr (Or.inr h)
      · rw [if_neg h3]
        exact Or.inl rfl

/-- The auxiliary string process returns is "", the finetune id the
remote service answered, or the caller's finetune id. -/
lemma process_string_cases (env : Env) (mode x_key : String) (p : Params) :
    (process env mode x_key p).1.2 = ""
    ∨ env.ft.outcome = FinetuneOutcome.ok (process env mode x_key p).1.2
    ∨ (process env mode x_key p).1.2 = p.finetune_id := by
  unfold process
  by_cases h1 : mode = "generate"
  · rw [if_pos h1]
    exact Or.inl rfl
  · rw [if_neg h1]
    by_cases h2 : mode = "finetune"
    · rw [if_pos h2]
      rcases (request_finetuning_result env.ft p.finetune_zip
        p.finetune_comment p.trigger_word p.finetune_mode p.iterations
        p.learning_rate p.captioning p.priority p.finetune_type
        p.lora_rank x_key).2 with h | h
      · exact Or.inl h
      · exact Or.inr (Or.inl h)
    · rw [if_neg h2]
      by_cases h3 : mode = "inference"
      · rw [if_pos h3]
        exact Or.inr (Or.inr (finetune_inference_result env.inf p.finetune_id
          p.prompt p.ultra_mode p.finetune_strength x_key p.output_format).1)
      · rw [if_neg h3]
        exact Or.inl rfl

end Lemmas


section Claims

/-- C8: The Dimension Resolver is a total function from strings to
pixel pairs: each of the 7 documented labels maps to its fixed pair,
and every other string maps to the default (1408, 800); it never
errors. -/
theorem C8_dimension_resolver :
    get_dimensions_from_ratio "1:1" = (1024, 1024)
    ∧ get_dimensions_from_ratio "4:3" = (1408, 1024)
    ∧ get_dimensions_from_ratio "3:4" = (1024, 1408)
    ∧ get_dimensions_from_ratio "16:9" = (1408, 800)
    ∧ get_dimensions_from_ratio "9:16" = (800, 1408)
    ∧ get_dimensions_from_ratio "21:9" = (1408, 608)
    ∧ get_dimensions_from_ratio "9:21" = (608, 1408)
    ∧ ∀ s, s ≠ "1:1" → s ≠ "4:3" → s ≠ "3:4" → s ≠ "16:9" →
        s ≠ "9:16" → s ≠ "21:9" → s ≠ "9:21" →
        get_dimensions_from_ratio s = (1408, 800) := by
  refine ⟨by decide, by decide, by decide, by decide, by decide, by decide, by decide, ?_⟩
  intro s h1 h2 h3 h4 h5 h6 h7
  simp [get_dimensions_from_ratio, h1, h2, h3, h4, h5, h6, h7]

/-- Witness for C8 at the unrecognized label "2:1". -/
theorem C8_dimension_resolver_witness :
    get_dimensions_from_ratio "2:1" = (1408, 800) :=
  C8_dimension_resolver.2.2.2.2.2.2.2 "2:1" (by decide) (by decide)
    (by decide) (by decide) (by decide) (by decide) (by decide)

/-- C9: The Placeholder Generator deterministically produces an
artifact of shape (1, 512, 512, 3) with every value equal to 0.0 (all
values within the range 0.0 to 1.0), and every error path of every
operation returns exactly this artifact: any process result whose
artifact is not one produced by a decode oracle is exactly
create_blank_image. -/
theorem C9_placeholder :
    create_blank_image.dims = [1, 512, 512, 3]
    ∧ (∀ i, create_blank_image.pix i = 0)
    ∧ (∀ i, 0 ≤ create_blank_image.pix i ∧ create_blank_image.pix i ≤ 1)
    ∧ (∀ env mode x_key p,
        (process env mode x_key p).1.1 = create_blank_image
        ∨ decodeOf env.genPoll (process env mode x_key p).1.1
        ∨ decodeOf env.inf.poll (process env mode x_key p).1.1) := by
  refine ⟨rfl, ?_, ?_, process_artifact_cases⟩
  · intro i
    simp [create_blank_image, blackPixelByte]
  · intro i
    simp [create_blank_image, blackPixelByte]

/-- C5: the ultra payload contains aspect_ratio and never width or
height; the standard payload contains width and height derived via the
Dimension Resolver and never aspect_ratio; and in both cases the
payload contains a seed field exactly when the input seed is not -1. -/
theorem C5_generate_payload (prompt aspect_ratio output_format : String)
    (safety_tolerance : Int) (raw : Bool) (seed : Int) :
    (hasKey (generate_payload prompt true aspect_ratio safety_tolerance
        output_format raw seed) "aspect_ratio" = true
      ∧ hasKey (generate_payload prompt true aspect_ratio safety_tolerance
          output_format raw seed) "width" = false
      ∧ hasKey (generate_payload prompt true aspect_ratio safety_tolerance
          output_format raw seed) "height" = false)
    ∧ (hasKey (generate_payload prompt false aspect_ratio safety_tolerance
          output_format raw seed) "width" = true
      ∧ hasKey (generate_payload prompt false aspect_ratio safety_tolerance
          output_format raw seed) "height" = true
      ∧ ("width", PValue.n (get_dimensions_from_ratio aspect_ratio).1)
          ∈ generate_payload prompt false aspect_ratio safety_tolerance
              output_format raw seed
      ∧ ("height", PValue.n (get_dimensions_from_ratio aspect_ratio).2)
          ∈ generate_payload prompt false aspect_ratio safety_tolerance
              output_format raw seed
      ∧ hasKey (generate_payload prompt false aspect_ratio safety_tolerance
          output_format raw seed) "aspect_ratio" = false)
    ∧ (hasKey (generate_payload prompt true aspect_ratio safety_tolerance
          output_format raw seed) "seed" = (seed != -1)
      ∧ hasKey (generate_payload prompt false aspect_ratio safety_tolerance
          output_format raw seed) "seed" = (seed != -1)) := by
  by_cases hs : seed = -1 <;>
    simp [generate_payload, hasKey, hs]

/-- C6: a generate invocation with an empty prompt returns the blank
image paired with the empty string and performs no external calls. -/
theorem C6_empty_prompt (env : Env) (x_key : String) (p : Params)
    (h : p.prompt = "") :
    process env "generate" x_key p = ((create_blank_image, ""), []) := by
  simp [process, generate_image, h]

/-- Witness for C6: the default parameters have an empty prompt. -/
theorem C6_empty_prompt_witness :
    process trivEnv "generate" "key" defaultParams = ((create_blank_image, ""), []) :=
  C6_empty_prompt trivEnv "key" defaultParams rfl

/-- C10: every mode string outside generate, finetune, inference makes
process return the blank image paired with the empty string and
perform no external calls. -/
theorem C10_unknown_mode (env : Env) (mode x_key : String) (p : Params)
    (h1 : mode ≠ "generate") (h2 : mode ≠ "finetune") (h3 : mode ≠ "inference") :
    process env mode x_key p = ((create_blank_image, ""), []) := by
  simp [process, h1, h2, h3]

/-- Witness for C10 at the unknown mode "flux". -/
theorem C10_unknown_mode_witness :
    process trivEnv "flux" "key" defaultParams = ((create_blank_image, ""), []) :=
  C10_unknown_mode trivEnv "flux" "key" defaultParams (by decide) (by decide) (by decide)

/-- C1: for every mode and every combination of parameters and oracle
outcomes, process returns a pair of an artifact and a string; the
artifact is the blank Placeholder unless it is one a decode oracle
actually produced, and the string is the empty string, the finetune id
the remote service answered, or the caller-supplied finetune id. -/
theorem C1_process_never_raises (env : Env) (mode x_key : String) (p : Params) :
    ((process env mode x_key p).1.1 = create_blank_image
      ∨ decodeOf env.genPoll (process env mode x_key p).1.1
      ∨ decodeOf env.inf.poll (process env mode x_key p).1.1)
    ∧ ((process env mode x_key p).1.2 = ""
      ∨ env.ft.outcome = FinetuneOutcome.ok (process env mode x_key p).1.2
      ∨ (process env mode x_key p).1.2 = p.finetune_id) :=
  ⟨process_artifact_cases env mode x_key p, process_string_cases env mode x_key p⟩

/-- C2: if every status query outcome is a transport failure, a
non-2xx response, or a Pending status, get_result terminates with the
blank image after exactly 15 status queries; and for every oracle it
never issues more than 15 status queries. -/
theorem C2_poller_budget (env : Nat → AttemptWorld)
    (task_id output_format x_key : String) :
    ((∀ n, (env n).statusResp = StatusOutcome.transport
        ∨ (∃ c st sm, (env n).statusResp = StatusOutcome.response c st sm
            ∧ ¬ (200 ≤ c ∧ c ≤ 299))
        ∨ (∃ sm, (env n).statusResp
            = StatusOutcome.response 200 (some StatusPending) sm)) →
      (get_result env task_id output_format x_key 1 15).1 = create_blank_image
      ∧ countStatusQueries (get_result env task_id output_format x_key 1 15).2 = 15)
    ∧ countStatusQueries (get_result env task_id output_format x_key 1 15).2 ≤ 15 := by
  constructor
  · intro hf
    have hf' : ∀ n, FailingAt (env n) := by
      intro n
      rcases hf n with h | ⟨c, st, sm, h, hc⟩ | ⟨sm, h⟩
      · exact Or.inl h
      · exact Or.inr (Or.inl ⟨c, st, sm, h, by omega⟩)
      · exact Or.inr (Or.inr ⟨sm, h⟩)
    exact pollLoop_allfail env 15 hf' 15 1 rfl
  · exact pollLoop_count_le env 15 15 1

/-- Witness for C2: an environment that always answers Pending. -/
theorem C2_poller_budget_witness :
    (get_result envAllPending "t" "png" "k" 1 15).1 = create_blank_image
    ∧ countStatusQueries (get_result envAllPending "t" "png" "k" 1 15).2 = 15 :=
  (C2_poller_budget envAllPending "t" "png" "k").1
    (fun _ => Or.inr (Or.inr ⟨none, rfl⟩))

/-- C4: the delay slept before the status query of attempt n is
min(2 to the n plus 5, 30) seconds, the delays of attempts 1..6 are
7, 9, 13, 21, 30, 30, every status query is immediately preceded by
its own sleep (including the first), and a run starting at attempt 1
issues its queries with consecutive attempt indices 1, 2, 3, ... . -/
theorem C4_backoff_schedule :
    (∀ n, wait_time n = min (2 ^ n + 5) 30)
    ∧ (List.range 6).map (fun i => wait_time (i + 1)) = [7, 9, 13, 21, 30, 30]
    ∧ (∀ env task_id output_format x_key attempt max_attempts,
        PacedTrace (get_result env task_id output_format x_key attempt max_attempts).2)
    ∧ (∀ env task_id output_format x_key max_attempts, ∃ k,
        queryIndices (get_result env task_id output_format x_key 1 max_attempts).2
          = List.range' 1 k) := by
  refine ⟨fun n => rfl, by decide, ?_, ?_⟩
  · intro env task_id output_format x_key attempt max_attempts
    exact pollLoop_paced env max_attempts (max_attempts + 1 - attempt) attempt
  · intro env task_id output_format x_key max_attempts
    exact pollLoop_queryIndices env max_attempts (max_attempts + 1 - 1) 1

/-- C3 counterexample: in an environment whose first attempt answers
Ready with a sample URL but whose download raises a transport error,
the poller issues a further status query (attempt 2), so a Ready
status does not always short-circuit the loop. -/
theorem C3_counterexample :
    (envC3 1).statusResp
      = StatusOutcome.response 200 (some StatusReady) (some "http://sample")
    ∧ Event.statusQuery 2 ∈ (get_result envC3 "t1" "png" "k" 1 15).2 :=
  ⟨rfl, by decide⟩

/-- C3 amended: on a Ready status the poller issues no further status
query when the sample URL is missing or empty, when the download
returns a non-2xx code, or when the decode succeeds; but when the
download raises or the decode fails with attempts remaining it resumes
polling at the next attempt; and on a status that is neither Pending
nor Ready it immediately returns the blank image after its single
status query, regardless of remaining budget. -/
theorem C3_short_circuit (env : Nat → AttemptWorld)
    (task_id output_format x_key : String) (attempt max_attempts : Nat)
    (hle : attempt ≤ max_attempts) :
    (∀ st sm, (env attempt).statusResp = StatusOutcome.response 200 st sm →
        st ≠ some StatusReady → st ≠ some StatusPending →
        get_result env task_id output_format x_key attempt max_attempts
          = (create_blank_image,
             [Event.sleep (wait_time attempt), Event.statusQuery attempt]))
    ∧ ((env attempt).statusResp
          = StatusOutcome.response 200 (some StatusReady) none →
        get_result env task_id output_format x_key attempt max_attempts
          = (create_blank_image,
             [Event.sleep (wait_time attempt), Event.statusQuery attempt]))
    ∧ ((env attempt).statusResp
          = StatusOutcome.response 200 (some StatusReady) (some "") →
        get_result env task_id output_format x_key attempt max_attempts
          = (create_blank_image,
             [Event.sleep (wait_time attempt), Event.statusQuery attempt]))
    ∧ (∀ u c, u ≠ "" →
        (env attempt).statusResp
          = StatusOutcome.response 200 (some StatusReady) (some u) →
        (env attempt).download = DownloadOutcome.http c → c ≠ 200 →
        get_result env task_id output_format x_key attempt max_attempts
          = (create_blank_image,
             [Event.sleep (wait_time attempt), Event.statusQuery attempt,
              Event.download]))
    ∧ (∀ u a, u ≠ "" →
        (env attempt).statusResp
          = StatusOutcome.response 200 (some StatusReady) (some u) →
        (env attempt).download = DownloadOutcome.http 200 →
        (env attempt).decode = DecodeOutcome.ok a →
        get_result env task_id output_format x_key attempt max_attempts
          = (a, [Event.sleep (wait_time attempt), Event.statusQuery attempt,
                 Event.download]))
    ∧ (∀ u, u ≠ "" →
        (env attempt).statusResp
          = StatusOutcome.response 200 (some StatusReady) (some u) →
        ((env attempt).download = DownloadOutcome.transport
          ∨ ((env attempt).download = DownloadOutcome.http 200
              ∧ (env attempt).decode = DecodeOutcome.fail)) →
        attempt < max_attempts →
        get_result env task_id output_format x_key attempt max_attempts
          = ((get_result env task_id output_format x_key (attempt + 1) max_attempts).1,
             Event.sleep (wait_time attempt) :: Event.statusQuery attempt ::
               Event.download ::
               (get_result env task_id output_format x_key (attempt + 1) max_attempts).2)) := by
  have hr : max_attempts + 1 - attempt = (max_attempts - attempt) + 1 := by omega
  have hr2 : max_attempts + 1 - (attempt + 1) = max_attempts - attempt := by omega
  refine ⟨?_, ?_, ?_, ?_, ?_, ?_⟩
  · intro st sm hst hne1 hne2
    simp [get_result, hr, pollLoop, pollStep, hst, hne1, hne2, dlEvents]
  · intro hst
    simp [get_result, hr, pollLoop, pollStep, hst, dlEvents]
  · intro hst
    simp [get_result, hr, pollLoop, pollStep, hst, dlEvents]
  · intro u c hu hst hdl hc
    simp [get_result, hr, pollLoop, pollStep, hst, hu, hdl, hc, dlEvents]
  · intro u a hu hst hdl hdec
    simp [get_result, hr, pollLoop, pollStep, hst, hu, hdl, hdec, dlEvents]
  · intro u hu hst hdlor hlt
    rcases hdlor with hdl | ⟨hdl, hdec⟩
    · simp [get_result, hr, hr2, pollLoop, pollStep, hst, hu, hdl, hlt, dlEvents]
    · simp [get_result, hr, hr2, pollLoop, pollStep, hst, hu, hdl, hdec, hlt, dlEvents]

/-- Witness for C3 amended: an Error status at the first attempt is
terminal after a single query. -/
theorem C3_short_circuit_witness :
    get_result envAllError "t" "png" "k" 1 15
      = (create_blank_image, [Event.sleep (wait_time 1), Event.statusQuery 1]) :=
  (C3_short_circuit envAllError "t" "png" "k" 1 15 (by decide)).1
    (some StatusError) none rfl (by decide) (by decide)

/-- C7 counterexample: in an environment whose first attempt answers
Ready with a sample URL, a successful download and a failing decode,
the poller issues a further status query (attempt 2): the decode
failure is treated as retriable polling, not mapped immediately to the
Placeholder. -/
theorem C7_counterexample :
    (envC7 1).statusResp
      = StatusOutcome.response 200 (some StatusReady) (some "http://sample")
    ∧ (envC7 1).download = DownloadOutcome.http 200
    ∧ (envC7 1).decode = DecodeOutcome.fail
    ∧ Event.statusQuery 2 ∈ (get_result envC7 "t1" "png" "k" 1 15).2 :=
  ⟨rfl, rfl, rfl, by decide⟩

/-- C7 amended: a decode failure on the Ready path is caught and never
raised; while attempts remain it is treated as retriable polling (the
poller resumes at the next attempt), and on the final attempt it
returns the blank Placeholder. -/
theorem C7_decode_failure (env : Nat → AttemptWorld)
    (task_id output_format x_key : String) (attempt max_attempts : Nat)
    (u : String) (hle : attempt ≤ max_attempts) (hu : u ≠ "")
    (hst : (env attempt).statusResp
      = StatusOutcome.response 200 (some StatusReady) (some u))
    (hdl : (env attempt).download = DownloadOutcome.http 200)
    (hdec : (env attempt).decode = DecodeOutcome.fail) :
    get_result env task_id output_format x_key attempt max_attempts
      = if attempt < max_attempts
        then ((get_result env task_id output_format x_key (attempt + 1) max_attempts).1,
              Event.sleep (wait_time attempt) :: Event.statusQuery attempt ::
                Event.download ::
                (get_result env task_id output_format x_key (attempt + 1) max_attempts).2)
        else (create_blank_image,
              [Event.sleep (wait_time attempt), Event.statusQuery attempt,
               Event.download]) := by
  have hr : max_attempts + 1 - attempt = (max_attempts - attempt) + 1 := by omega
  have hr2 : max_attempts + 1 - (attempt + 1) = max_attempts - attempt := by omega
  by_cases hlt : attempt < max_attempts
  · rw [if_pos hlt]
    simp [get_result, hr, hr2, pollLoop, pollStep, hst, hu, hdl, hdec, hlt, dlEvents]
  · rw [if_neg hlt]
    simp [get_result, hr, pollLoop, pollStep, hst, hu, hdl, hdec, hlt, dlEvents]

/-- Witness for C7 amended at the final attempt: the decode failure of
attempt 15 of 15 yields the blank image. -/
theorem C7_decode_failure_witness :
    get_result envC7 "t" "png" "k" 15 15
      = if 15 < 15
        then ((get_result envC7 "t" "png" "k" 16 15).1,
              Event.sleep (wait_time 15) :: Event.statusQuery 15 ::
                Event.download :: (get_result envC7 "t" "png" "k" 16 15).2)
        else (create_blank_image,
              [Event.sleep (wait_time 15), Event.statusQuery 15, Event.download]) :=
  C7_decode_failure envC7 "t" "png" "k" 15 15 "http://sample"
    (by decide) (by decide) rfl rfl rfl

end Claims

end FluxAPI
